import Mathlib

set_option linter.unusedVariables false

/-!
Verification of the STIR/SHAKEN signing and verification core of
`res/res_stir_shaken.c` (Asterisk). The C file is embedded shallowly: the
AstDB key/value store and the filesystem become explicit state, the external
collaborators (CURL fetcher, EVP crypto, jansson parser, certificate store)
become fields of an environment record, and every function of the module is
translated into a Lean definition of the same name.
-/

namespace StirShaken

/-- Suffix of the list starting at the first occurrence of the needle, as C `strstr`. -/
def strstrL (needle : List Char) : List Char → Option (List Char)
  | [] => if needle.isPrefixOf ([] : List Char) then some [] else none
  | c :: t => if needle.isPrefixOf (c :: t) then some (c :: t) else strstrL needle t

/-- Suffix of the list starting at the first occurrence of the character, as C `strchr`. -/
def strchrL (ch : Char) : List Char → Option (List Char)
  | [] => none
  | c :: t => if c = ch then some (c :: t) else strchrL ch t

/-- Decimal digit character for a value below ten. -/
def digitChar : Nat → Char
  | 0 => '0'
  | 1 => '1'
  | 2 => '2'
  | 3 => '3'
  | 4 => '4'
  | 5 => '5'
  | 6 => '6'
  | 7 => '7'
  | 8 => '8'
  | 9 => '9'
  | _ => '*'

/-- Fuel-driven decimal rendering; the fuel only bounds the recursion depth so
that the definition is structural and reduces definitionally. -/
def natPrintAux : Nat → Nat → List Char
  | 0, _ => []
  | fuel + 1, n =>
    if n < 10 then [digitChar n]
    else natPrintAux fuel (n / 10) ++ [digitChar (n % 10)]

/-- Decimal rendering of a natural number, most significant digit first. -/
def natPrint (n : Nat) : List Char :=
  natPrintAux (n + 1) n

/-- Value of a list of decimal digit characters, accumulated as strtoul does. -/
def digitsToNat (ds : List Char) : Nat :=
  ds.foldl (fun a c => a * 10 + (c.toNat - 48)) 0

/-- Numeric value of the leading run of decimal digits; none when the first
character is not a digit. -/
def parseDigits (cs : List Char) : Option Nat :=
  match cs.takeWhile Char.isDigit with
  | [] => none
  | ds => some (digitsToNat ds)

/-- Modelled from the spec: `ast_str_to_uint` and `ast_str_to_ulong` (asterisk
conversions API, not under src/). The spec's expiration rule reads the number N
that follows the cache directive's '=' ("If Cache-Control contains s-maxage=N
or, lacking that, max-age=N, expiration = now + N seconds"), so the parse is
modelled with strtoul semantics: skip leading spaces, then read the leading
decimal digits. -/
def ast_str_to_uint (s : String) : Option Nat :=
  parseDigits (s.toList.dropWhile (fun c => c = ' '))

/-- Modelled from the spec: same numeric parse used for the stored expiration. -/
def ast_str_to_ulong (s : String) : Option Nat :=
  ast_str_to_uint s

/-- Rendering of the expiration by `snprintf(time_buf, sizeof(time_buf), "%30lu", ...)`
(line 191): the value right-aligned in width 30 with spaces; the 32-byte buffer
always suffices for a 64-bit tv_sec, so no truncation is modelled. -/
def snprintf30 (n : Nat) : String :=
  String.mk (List.replicate (30 - (natPrint n).length) ' ' ++ natPrint n)

/-- basename(3) on the url: the component after the final '/'. -/
def basenameStr (s : String) : String :=
  String.mk ((s.toList.reverse.takeWhile (fun c => c ≠ '/')).reverse)

/-- snprintf with an explicit buffer size: at most size - 1 characters are kept. -/
def snprintf_trunc (size : Nat) (s : String) : String :=
  String.mk (s.toList.take (size - 1))

/-- Model of jansson / ast_json values (the shapes the module manipulates). -/
inductive Json where
  | null
  | str (s : String)
  | int (n : Int)
  | obj (fields : List (String × Json))

/-- First binding of the key in an object's field list. -/
def lookupField : List (String × Json) → String → Option Json
  | [], _ => none
  | (k', v) :: rest, k => if k' = k then some v else lookupField rest k

/-- ast_json_object_get: field of an object, NULL (none) when absent or when the
value is not an object. -/
def jget : Json → String → Option Json
  | .obj fs, k => lookupField fs k
  | _, _ => none

/-- ast_json_object_get applied to a possibly NULL json. -/
def jgetO (j : Option Json) (k : String) : Option Json :=
  match j with
  | none => none
  | some x => jget x k

/-- ast_json_string_get: the string value, NULL (none) on a NULL input or a
non-string value. -/
def ast_json_string_get : Option Json → Option String
  | some (.str s) => some s
  | _ => none

/-- ast_strlen_zero on a possibly NULL C string. -/
def strlenZeroOpt : Option String → Bool
  | none => true
  | some s => s = ""

/-- Replace the binding of a key, appending when absent (jansson object set). -/
def setField : List (String × Json) → String → Json → List (String × Json)
  | [], k, v => [(k, v)]
  | (k', v') :: rest, k, v =>
    if k' = k then (k, v) :: rest else (k', v') :: setField rest k v

/-- ast_json_object_set: update a field, failing (C -1, here none) when the
target is NULL or not an object. -/
def ast_json_object_set (j : Json) (k : String) (v : Json) : Option Json :=
  match j with
  | .obj fs => some (.obj (setField fs k v))
  | _ => none

/-- The pattern `ast_json_object_set(ast_json_object_get(json, outer), key, v)` used
by the stir_shaken_add helpers: in C the inner object is mutated in place, so the
enclosing json sees the change; in the pure model the enclosing object is rebuilt. -/
def setIn (json : Json) (outer key : String) (v : Json) : Option Json :=
  match jget json outer with
  | none => none
  | some inner =>
    match ast_json_object_set inner key v with
    | none => none
    | some inner' => ast_json_object_set json outer inner'

/-- struct timeval with non-negative fields. -/
structure Timeval where
  sec : Nat
  usec : Nat

/-- ast_tvcmp: lexicographic comparison, -1 / 0 / 1. -/
def ast_tvcmp (a b : Timeval) : Int :=
  if a.sec < b.sec then -1
  else if b.sec < a.sec then 1
  else if a.usec < b.usec then -1
  else if b.usec < a.usec then 1
  else 0

/-- The AstDB key/value store: family and key to value, "" meaning absent
(ast_db_get leaves the buffer empty on a miss). -/
def AstDB := String → String → String

/-- ast_db_put. -/
def ast_db_put (db : AstDB) (f k v : String) : AstDB :=
  fun f' k' => if f' = f ∧ k' = k then v else db f' k'

/-- ast_db_get, returning "" on a miss. -/
def ast_db_get (db : AstDB) (f k : String) : String :=
  db f k

/-- ast_db_del. -/
def ast_db_del (db : AstDB) (f k : String) : AstDB :=
  fun f' k' => if f' = f ∧ k' = k then "" else db f' k'

/-- ast_db_deltree: delete a whole family. -/
def ast_db_deltree (db : AstDB) (f : String) : AstDB :=
  fun f' k' => if f' = f then "" else db f' k'

/-- The filesystem: path to file content. -/
def FS := String → Option String

/-- remove(3) on the filesystem model. -/
def fsRemove (fs : FS) (path : String) : FS :=
  fun p => if p = path then none else fs p

/-- A successful download writing content at a path. -/
def fsWrite (fs : FS) (path content : String) : FS :=
  fun p => if p = path then some content else fs p

/-- The mutable state the module touches: the AstDB store and the filesystem. -/
structure St where
  db : AstDB
  fs : FS

/-- Modelled from the spec: `ast_sha1_hash` (asterisk utils, not under src/)
renders the SHA-1 of the url as 40 hex characters "used purely as an opaque key
in the external KV - NOT for security"; modelled as an injective tag that never
collides with the family name "STIR_SHAKEN". -/
def ast_sha1_hash (url : String) : String :=
  "#" ++ url

/-- The cache metadata the CURL callback exposes ("" for an absent header). -/
structure CurlData where
  cache_control : String
  expires : String

/-- A certificate handle from the external certificate store. -/
structure Cert where
  public_key_url : String
  private_key : String

/-- The external collaborators of a verify call: the clock, the configured data
directory, the RFC-1123 date parser (strptime/mktime), the CURL fetcher with the
response bytes it writes, the PEM key reader's acceptance, the EVP digest-verify
outcome, and the jansson string parser. -/
structure Env where
  now : Timeval
  dataDir : String
  strptimeEpoch : String → Nat
  curlRes : String → Option CurlData
  body : String → String
  keyOk : String → Bool
  evpOk : String → String → String → Bool
  loads : String → Option Json

/-- Expiration epoch computed by set_public_key_expiration (lines 155-191): if a
Cache-Control value is present, locate "s-maxage" falling back to "max-age" with
strstr, find the '=' with strchr, and parse the number after it; otherwise use
the Expires date; otherwise the current time. -/
def expiration_epoch (now : Timeval) (parseDate : String → Nat) (data : CurlData) : Nat :=
  let value := data.cache_control
  if value ≠ "" then
    let strMaxAge :=
      match strstrL "s-maxage".toList value.toList with
      | some l => some l
      | none => strstrL "max-age".toList value.toList
    match strMaxAge with
    | none => now.sec
    | some l =>
      match strchrL '=' l with
      | none => now.sec
      | some eqSuf =>
        match ast_str_to_uint (String.mk eqSuf.tail) with
        | none => now.sec
        | some maxAge => now.sec + maxAge
  else
    let value2 := data.expires
    if value2 ≠ "" then parseDate value2 else now.sec

/-- set_public_key_expiration (lines 155-194): store the computed epoch, printed
with "%30lu", under hash(url) / "expiration". Only tv_sec is stored. -/
def set_public_key_expiration (now : Timeval) (parseDate : String → Nat)
    (db : AstDB) (public_key_url : String) (data : CurlData) : AstDB :=
  ast_db_put db (ast_sha1_hash public_key_url) "expiration"
    (snprintf30 (expiration_epoch now parseDate data))

/-- public_key_is_expired (lines 204-223): expired (true) when no expiration is
stored, when the stored value fails to parse, or when now is not strictly before
the stored epoch. -/
def public_key_is_expired (now : Timeval) (db : AstDB) (public_key_url : String) : Bool :=
  let expiration := ast_db_get db (ast_sha1_hash public_key_url) "expiration"
  if expiration = "" then true
  else
    match ast_str_to_ulong expiration with
    | none => true
    | some e => if ast_tvcmp now ⟨e, 0⟩ = -1 then false else true

/-- get_path_to_public_key (lines 233-247): the stored path for the url, "" when
absent from AstDB. -/
def get_path_to_public_key (db : AstDB) (public_key_url : String) : String :=
  ast_db_get db (ast_sha1_hash public_key_url) "path"

/-- add_public_key_to_astdb (lines 255-263): record url -> hash in the
STIR_SHAKEN family and the file path under hash / "path". -/
def add_public_key_to_astdb (db : AstDB) (public_key_url filepath : String) : AstDB :=
  let hash := ast_sha1_hash public_key_url
  ast_db_put (ast_db_put db "STIR_SHAKEN" public_key_url hash) hash "path" filepath

/-- remove_public_key_from_astdb (lines 270-285): delete the file at the stored
path, the url entry in the STIR_SHAKEN family, and the whole hash subtree. -/
def remove_public_key_from_astdb (st : St) (public_key_url : String) : St :=
  let hash := ast_sha1_hash public_key_url
  let filepath := ast_db_get st.db hash "path"
  { db := ast_db_deltree (ast_db_del st.db "STIR_SHAKEN" public_key_url) hash
    fs := fsRemove st.fs filepath }

/-- Trailing '=' padding count of stir_shaken_verify_signature (lines 326-332):
counted only when the string is longer than two characters, at most two. -/
def b64_padding (sig : String) : Nat :=
  let cs := sig.toList
  if 2 < cs.length ∧ cs.getD (cs.length - 1) ' ' = '=' then
    if cs.getD (cs.length - 2) ' ' = '=' then 2 else 1
  else 0

/-- Decoded signature length of stir_shaken_verify_signature (line 334):
(len / 4 * 3) - padding. -/
def decoded_signature_length (sig : String) : Nat :=
  sig.toList.length / 4 * 3 - b64_padding sig

/-- stir_shaken_verify_signature (lines 297-350): SHA-256 / ECDSA digest-verify
of the message against the base64-decoded signature. The base64 length
accounting is decoded_signature_length; the EVP outcome itself is the external
crypto collaborator. Returns 0 on success, -1 on failure. -/
def stir_shaken_verify_signature (env : Env) (msg signature public_key : String) : Int :=
  let decLen := decoded_signature_length signature
  if env.evpOk public_key msg signature then 0 else -1

/-- stir_shaken_read_key (external reader, declared in stir_shaken.h): the PEM
at the path read as a public key; the key is modelled by the file content,
accepted when the external reader recognizes it. -/
def stir_shaken_read_key (env : Env) (st : St) (path : String) : Option String :=
  match st.fs path with
  | none => none
  | some c => if env.keyOk c then some c else none

/-- run_curl (lines 361-381): fetch the url to the path; on success the response
bytes land at the path and the expiration is recorded from the response headers.
On failure the state is unchanged (the destination's content is unspecified in
the spec; no claim depends on it). -/
def run_curl (env : Env) (st : St) (public_key_url path : String) : Option St :=
  match env.curlRes public_key_url with
  | none => none
  | some data =>
    some { db := set_public_key_expiration env.now env.strptimeEpoch st.db public_key_url data
           fs := fsWrite st.fs path (env.body public_key_url) }

/-- curl_and_check_expiration (lines 394-414). The C parameter is `int *curl`
and the guard at line 396 is `if (curl)`: it tests the POINTER, not the pointed
value, so with the non-null pointer both call sites pass (`&curl`) the function
always fails at once. The pointer is modelled as an Option (none = NULL).
Returns the state, the updated pointed value (none on failure), and the number
of fetches performed. -/
def curl_and_check_expiration (env : Env) (st : St) (public_key_url path : String)
    (curlPtr : Option Nat) : St × Option Nat × Nat :=
  if curlPtr.isSome then (st, none, 0)
  else
    match run_curl env st public_key_url path with
    | none => (st, none, 1)
    | some st1 =>
      if public_key_is_expired env.now st1.db public_key_url then (st1, none, 1)
      else ({ st1 with db := add_public_key_to_astdb st1.db public_key_url path }, some 1, 1)

/-- The returned payload record (struct ast_stir_shaken_payload); calloc leaves
the unset string fields NULL, modelled as "". -/
structure SSPayload where
  header : Json
  payload : Json
  signature : String
  algorithm : String
  public_key_url : String

/-- Outcome of a verify call: the returned payload (none = NULL), the final
state, and how many CURL fetches were performed. -/
structure VOut where
  result : Option SSPayload
  st : St
  fetches : Nat

/-- Final phase of ast_stir_shaken_verify (lines 530-563): signature check, then
the header and payload strings parsed as JSON into the returned record. -/
def verifyFinish (env : Env) (st : St) (fetches : Nat) (public_key : String)
    (header payload signature algorithm public_key_url : String) : VOut :=
  if stir_shaken_verify_signature env payload signature public_key ≠ 0 then
    ⟨none, st, fetches⟩
  else
    match env.loads header with
    | none => ⟨none, st, fetches⟩
    | some hJ =>
      match env.loads payload with
      | none => ⟨none, st, fetches⟩
      | some pJ =>
        ⟨some { header := hJ, payload := pJ, signature := signature,
                algorithm := algorithm, public_key_url := public_key_url },
         st, fetches⟩

/-- Key reading phase of ast_stir_shaken_verify (lines 509-528): read the PEM,
and on failure purge the entry, refetch once (through the curl flag) and retry;
a second failure purges again and is fatal. -/
def verifyRead (env : Env) (st : St) (fetches curl : Nat) (file_path : String)
    (header payload signature algorithm public_key_url : String) : VOut :=
  match stir_shaken_read_key env st file_path with
  | some key =>
    verifyFinish env st fetches key header payload signature algorithm public_key_url
  | none =>
    let st1 := remove_public_key_from_astdb st public_key_url
    match curl_and_check_expiration env st1 public_key_url file_path (some curl) with
    | (st2, none, f) => ⟨none, st2, fetches + f⟩
    | (st2, some curl2, f) =>
      match stir_shaken_read_key env st2 file_path with
      | none => ⟨none, remove_public_key_from_astdb st2 public_key_url, fetches + f⟩
      | some key =>
        verifyFinish env st2 (fetches + f) key header payload signature algorithm public_key_url

/-- Freshness phase of ast_stir_shaken_verify (lines 497-507): when the key is
expired, purge the entry and refetch through curl_and_check_expiration. -/
def verifyExpired (env : Env) (st : St) (fetches curl : Nat) (file_path : String)
    (header payload signature algorithm public_key_url : String) : VOut :=
  if public_key_is_expired env.now st.db public_key_url then
    let st1 := remove_public_key_from_astdb st public_key_url
    match curl_and_check_expiration env st1 public_key_url file_path (some curl) with
    | (st2, none, f) => ⟨none, st2, fetches + f⟩
    | (st2, some curl2, f) =>
      verifyRead env st2 (fetches + f) curl2 file_path
        header payload signature algorithm public_key_url
  else
    verifyRead env st fetches curl file_path header payload signature algorithm public_key_url

/-- Cache lookup phase of ast_stir_shaken_verify (lines 461-494): on a miss,
purge the entry, build the default path — the snprintf at line 480 is passed
`sizeof(*file_path)`, one byte, so only the terminating NUL fits and the path
collapses to "" — then fetch and record it. -/
def verifyFetch (env : Env) (st : St)
    (header payload signature algorithm public_key_url : String) : VOut :=
  let file_path := get_path_to_public_key st.db public_key_url
  if file_path = "" then
    let st1 := remove_public_key_from_astdb st public_key_url
    let filename := basenameStr public_key_url
    let file_path2 :=
      snprintf_trunc 1 (env.dataDir ++ "/keys/" ++ "stir_shaken" ++ "/" ++ filename)
    match run_curl env st1 public_key_url file_path2 with
    | none => ⟨none, st1, 1⟩
    | some st2 =>
      let st3 := { st2 with db := add_public_key_to_astdb st2.db public_key_url file_path2 }
      verifyExpired env st3 1 1 file_path2 header payload signature algorithm public_key_url
  else
    verifyExpired env st 0 0 file_path header payload signature algorithm public_key_url

/-- ast_stir_shaken_verify (lines 416-564): the five required arguments are
checked non-empty (ast_strlen_zero; a NULL argument is modelled as ""), then the
cache / fetch / freshness / read / signature pipeline runs. -/
def ast_stir_shaken_verify (env : Env) (st : St)
    (header payload signature algorithm public_key_url : String) : VOut :=
  if header = "" then ⟨none, st, 0⟩
  else if payload = "" then ⟨none, st, 0⟩
  else if signature = "" then ⟨none, st, 0⟩
  else if algorithm = "" then ⟨none, st, 0⟩
  else if public_key_url = "" then ⟨none, st, 0⟩
  else verifyFetch env st header payload signature algorithm public_key_url

/-- The ERROR log line emitted by stir_shaken_verify_json before returning NULL:
either a required field is missing/empty, or a field does not carry its required
value. -/
inductive ProfileErr where
  | missing (field : String)
  | mismatch (field expected got : String)

/-- Field named by a profile error. -/
def errField : ProfileErr → String
  | .missing f => f
  | .mismatch f _ _ => f

/-- stir_shaken_verify_json (lines 575-668): require header.ppt = "shaken",
header.typ = "passport", header.alg = "ES256" and a non-empty payload.orig.tn;
on success return the record with deep copies of header and payload (deep copies
coincide with the values in the pure model) and the validated algorithm. -/
def stir_shaken_verify_json (json : Json) : Except ProfileErr SSPayload :=
  match jget json "header" with
  | none => .error (.missing "header")
  | some hdr =>
    let vppt := ast_json_string_get (jget hdr "ppt")
    if strlenZeroOpt vppt then .error (.missing "ppt")
    else if vppt ≠ some "shaken" then .error (.mismatch "ppt" "shaken" (vppt.getD ""))
    else
      let vtyp := ast_json_string_get (jget hdr "typ")
      if strlenZeroOpt vtyp then .error (.missing "typ")
      else if vtyp ≠ some "passport" then .error (.mismatch "typ" "passport" (vtyp.getD ""))
      else
        let valg := ast_json_string_get (jget hdr "alg")
        if strlenZeroOpt valg then .error (.missing "alg")
        else if valg ≠ some "ES256" then .error (.mismatch "alg" "ES256" (valg.getD ""))
        else
          match jget json "payload" with
          | none => .error (.missing "payload")
          | some pl =>
            let vtn := ast_json_string_get (jgetO (jget pl "orig") "tn")
            if strlenZeroOpt vtn then .error (.missing "orig->tn")
            else
              .ok { header := hdr, payload := pl, signature := "",
                    algorithm := valg.getD "", public_key_url := "" }

/-- The external collaborators of a sign call: the clock, the certificate store
keyed by caller number, the jansson serializer, and the EVP ES256 signer with
its base64 encoding (returning the encoded signature, none on failure). -/
structure SignEnv where
  now : Timeval
  certs : String → Option Cert
  dump : Json → Option String
  evpSign : String → String → Option String

/-- stir_shaken_sign (lines 679-745): EVP digest-sign of the serialized JSON and
base64 encoding of the result; the crypto is the external collaborator. -/
def stir_shaken_sign (env : SignEnv) (json_str private_key : String) : Option String :=
  env.evpSign json_str private_key

/-- stir_shaken_add_x5u (lines 756-766). -/
def stir_shaken_add_x5u (json : Json) (x5u : String) : Option Json :=
  setIn json "header" "x5u" (.str x5u)

/-- stir_shaken_add_attest (lines 777-787). -/
def stir_shaken_add_attest (json : Json) (attest : String) : Option Json :=
  setIn json "payload" "attest" (.str attest)

/-- stir_shaken_add_origid (lines 798-808). The C checks `!origid` (the argument,
never NULL at the single call site) after creating the JSON string, so the set
always proceeds. -/
def stir_shaken_add_origid (json : Json) (origid : String) : Option Json :=
  setIn json "payload" "origid" (.str origid)

/-- stir_shaken_add_iat (lines 818-829): iat = tv_sec + tv_usec / 1000 (the
formula preserved verbatim from the source; the spec flags it as a likely bug). -/
def stir_shaken_add_iat (env : SignEnv) (json : Json) : Option Json :=
  setIn json "payload" "iat" (.int (Int.ofNat (env.now.sec + env.now.usec / 1000)))

/-- ast_stir_shaken_sign (lines 831-907): validate the JWT shape (taking deep
copies of header and payload), resolve the certificate by payload.orig.tn,
inject x5u / attest / origid / iat into the caller's json, serialize, sign, and
attach the signature to the record. The second component is the caller's json
after the in-place mutations. -/
def ast_stir_shaken_sign (env : SignEnv) (json : Json) : Option SSPayload × Json :=
  match stir_shaken_verify_json json with
  | .error _ => (none, json)
  | .ok payload =>
    match ast_json_string_get (jgetO (jgetO (jget json "payload") "orig") "tn") with
    | none => (none, json)
    | some caller_id_num =>
      match env.certs caller_id_num with
      | none => (none, json)
      | some cert =>
        match stir_shaken_add_x5u json cert.public_key_url with
        | none => (none, json)
        | some json1 =>
          match stir_shaken_add_attest json1 "B" with
          | none => (none, json1)
          | some json2 =>
            match stir_shaken_add_origid json2 "asterisk" with
            | none => (none, json2)
            | some json3 =>
              match stir_shaken_add_iat env json3 with
              | none => (none, json3)
              | some json4 =>
                match env.dump json4 with
                | none => (none, json4)
                | some json_str =>
                  match stir_shaken_sign env json_str cert.private_key with
                  | none => (none, json4)
                  | some signature => (some { payload with signature := signature }, json4)

/-- Count of trailing '=' characters of a signature string (the spec's p). -/
def trailingEq (sig : String) : Nat :=
  (sig.toList.reverse.takeWhile (fun c => c = '=')).length

/-- Success of the JWT profile validator, as a Bool. -/
def validator_ok (j : Json) : Bool :=
  match stir_shaken_verify_json j with
  | .ok _ => true
  | .error _ => false

/-- Spec-side reading of a two-level string field such as header.ppt. -/
def json_get_str2 (j : Json) (a b : String) : Option String :=
  ast_json_string_get (jgetO (jget j a) b)

/-- Spec-side reading of payload.orig.tn. -/
def json_get_orig_tn (j : Json) : Option String :=
  ast_json_string_get (jgetO (jgetO (jget j "payload") "orig") "tn")

/-- Spec-side profile constraints of the validator (section 4.4 of the spec):
header.ppt = "shaken", header.typ = "passport", header.alg = "ES256", and
payload.orig.tn a non-empty string. -/
def spec_profile_ok (j : Json) : Prop :=
  json_get_str2 j "header" "ppt" = some "shaken" ∧
  json_get_str2 j "header" "typ" = some "passport" ∧
  json_get_str2 j "header" "alg" = some "ES256" ∧
  (json_get_orig_tn j).getD "" ≠ ""

instance spec_profile_ok_dec (j : Json) : Decidable (spec_profile_ok j) := by
  unfold spec_profile_ok
  infer_instance

/-- Which profile fields (as named by the validator's error messages) are
actually violated on a given input. -/
def profile_field_bad (j : Json) : String → Prop
  | "header" => jget j "header" = none
  | "ppt" => json_get_str2 j "header" "ppt" ≠ some "shaken"
  | "typ" => json_get_str2 j "header" "typ" ≠ some "passport"
  | "alg" => json_get_str2 j "header" "alg" ≠ some "ES256"
  | "payload" => jget j "payload" = none
  | "orig->tn" => (json_get_orig_tn j).getD "" = ""
  | _ => False

/-- Rewriting of a verify outcome's algorithm field, used to state that the
algorithm argument is only copied verbatim into the result. -/
def patchAlg (alg : String) (v : VOut) : VOut :=
  { v with result := v.result.map (fun r => { r with algorithm := alg }) }

/-- A trivial environment: every external collaborator fails. -/
def env0 : Env :=
  { now := ⟨0, 0⟩, dataDir := "", strptimeEpoch := fun _ => 0,
    curlRes := fun _ => none, body := fun _ => "", keyOk := fun _ => false,
    evpOk := fun _ _ _ => false, loads := fun _ => none }

/-- The empty state: empty AstDB, empty filesystem. -/
def st0 : St :=
  { db := fun _ _ => "", fs := fun _ => none }

/-- Url of the stale-cache scenario. -/
def u2 : String := "http://example.com/key2.pem"

/-- State with a cached entry for u2 whose stored expiration (epoch 5) is past. -/
def st2 : St :=
  { db := ast_db_put (ast_db_put (fun _ _ => "") (ast_sha1_hash u2) "path" "/var/keys/key2.pem")
            (ast_sha1_hash u2) "expiration" "5"
    fs := fun p => if p = "/var/keys/key2.pem" then some "STALEKEY" else none }

/-- Environment at epoch 1000 whose fetcher would succeed with a fresh
(max-age 3600) valid key: a refetch, were it attempted, would succeed. -/
def env2 : Env :=
  { now := ⟨1000, 0⟩, dataDir := "/var/lib/asterisk", strptimeEpoch := fun _ => 0,
    curlRes := fun _ => some ⟨"max-age=3600", ""⟩, body := fun _ => "FRESHKEY",
    keyOk := fun _ => true, evpOk := fun _ _ _ => true, loads := fun s => some (.str s) }

/-- Url of the signature-mismatch scenario. -/
def u3 : String := "http://example.com/key3.pem"

/-- State with a fresh cached entry for u3 (expiration epoch 9999999999) and a
readable key file. -/
def st3 : St :=
  { db := ast_db_put (ast_db_put (fun _ _ => "") (ast_sha1_hash u3) "path" "/var/keys/key3.pem")
            (ast_sha1_hash u3) "expiration" "9999999999"
    fs := fun p => if p = "/var/keys/key3.pem" then some "GOODKEY" else none }

/-- Environment whose EVP digest-verify reports a mismatch. -/
def env3 : Env :=
  { now := ⟨1000, 0⟩, dataDir := "/var/lib/asterisk", strptimeEpoch := fun _ => 0,
    curlRes := fun _ => some ⟨"max-age=3600", ""⟩, body := fun _ => "GOODKEY",
    keyOk := fun _ => true, evpOk := fun _ _ _ => false, loads := fun s => some (.str s) }

/-- Url of the cache-miss scenario. -/
def u4 : String := "http://example.com/key.pem"

/-- Environment for the cache-miss scenario: successful fetch with
Cache-Control max-age=60 at epoch 100, readable key, matching signature. -/
def env4 : Env :=
  { now := ⟨100, 0⟩, dataDir := "/var/lib/asterisk", strptimeEpoch := fun _ => 0,
    curlRes := fun _ => some ⟨"max-age=60", ""⟩, body := fun _ => "PEM4",
    keyOk := fun _ => true, evpOk := fun _ _ _ => true, loads := fun s => some (.str s) }

/-- A well-formed input JWT for the validator. -/
def jGood : Json :=
  .obj [("header", .obj [("ppt", .str "shaken"), ("typ", .str "passport"),
                         ("alg", .str "ES256")]),
        ("payload", .obj [("orig", .obj [("tn", .str "+15551234567")])])]

/-- A well-formed input JWT for the sign scenario. -/
def jIn : Json :=
  .obj [("header", .obj [("ppt", .str "shaken"), ("typ", .str "passport"),
                         ("alg", .str "ES256")]),
        ("payload", .obj [("orig", .obj [("tn", .str "+15551234567")])])]

/-- Sign environment whose certificate store resolves jIn's caller number. -/
def signEnv1 : SignEnv :=
  { now := ⟨1700000000, 500⟩,
    certs := fun tn =>
      if tn = "+15551234567" then some ⟨"https://certs.example/c1.pem", "PRIV1"⟩ else none,
    dump := fun _ => some "SERIALIZED", evpSign := fun _ _ => some "U0lHTg==" }

/-- The caller's json after a successful sign of jIn under signEnv1: the
injected fields land here, not in the returned record. -/
def jOut : Json :=
  .obj [("header", .obj [("ppt", .str "shaken"), ("typ", .str "passport"),
                         ("alg", .str "ES256"),
                         ("x5u", .str "https://certs.example/c1.pem")]),
        ("payload", .obj [("orig", .obj [("tn", .str "+15551234567")]),
                          ("attest", .str "B"), ("origid", .str "asterisk"),
                          ("iat", .int 1700000000)])]

/-- The record returned by a successful sign of jIn under signEnv1. -/
def rOut : SSPayload :=
  { header := .obj [("ppt", .str "shaken"), ("typ", .str "passport"), ("alg", .str "ES256")]
    payload := .obj [("orig", .obj [("tn", .str "+15551234567")])]
    signature := "U0lHTg=="
    algorithm := "ES256"
    public_key_url := "" }

/-! Helper lemmas about the AstDB model. -/

theorem ast_db_get_put_same (db : AstDB) (f k v : String) :
    ast_db_get (ast_db_put db f k v) f k = v := by
  simp [ast_db_get, ast_db_put]

theorem ast_db_get_deltree_same (db : AstDB) (f k : String) :
    ast_db_get (ast_db_deltree db f) f k = "" := by
  simp [ast_db_get, ast_db_deltree]

/-! Helper lemmas for the decimal print / parse roundtrip used by the
expiration storage. -/

theorem digitChar_isDigit (d : Nat) (h : d < 10) : (digitChar d).isDigit = true := by
  interval_cases d <;> decide

theorem digitChar_toNat (d : Nat) (h : d < 10) : (digitChar d).toNat - 48 = d := by
  interval_cases d <;> decide

theorem natPrintAux_ne_nil (fuel n : Nat) (h : n < fuel) : natPrintAux fuel n ≠ [] := by
  cases fuel with
  | zero => omega
  | succ f =>
    rw [natPrintAux]
    split
    · simp
    · simp

theorem natPrint_ne_nil (n : Nat) : natPrint n ≠ [] :=
  natPrintAux_ne_nil (n + 1) n (by omega)

theorem natPrintAux_all_digits (fuel : Nat) :
    ∀ n, n < fuel → ∀ c ∈ natPrintAux fuel n, c.isDigit = true := by
  induction fuel with
  | zero => intro n hn; omega
  | succ f ih =>
    intro n hn c hc
    rw [natPrintAux] at hc
    split at hc
    · next h =>
      simp only [List.mem_singleton] at hc
      subst hc
      exact digitChar_isDigit n h
    · next h =>
      rw [List.mem_append] at hc
      rcases hc with hc | hc
      · have hd : n / 10 < n := Nat.div_lt_self (by omega) (by omega)
        exact ih (n / 10) (by omega) c hc
      · simp only [List.mem_singleton] at hc
        subst hc
        exact digitChar_isDigit (n % 10) (Nat.mod_lt _ (by omega))

theorem natPrint_all_digits (n : Nat) : ∀ c ∈ natPrint n, c.isDigit = true :=
  natPrintAux_all_digits (n + 1) n (by omega)

theorem digitsToNat_natPrintAux (fuel : Nat) :
    ∀ n, n < fuel → digitsToNat (natPrintAux fuel n) = n := by
  induction fuel with
  | zero => intro n hn; omega
  | succ f ih =>
    intro n hn
    rw [natPrintAux]
    split
    · next h =>
      simp only [digitsToNat, List.foldl_cons, List.foldl_nil, Nat.zero_mul, Nat.zero_add]
      exact digitChar_toNat n h
    · next h =>
      have hd : n / 10 < n := Nat.div_lt_self (by omega) (by omega)
      have hrec := ih (n / 10) (by omega)
      simp only [digitsToNat, List.foldl_append, List.foldl_cons, List.foldl_nil] at hrec ⊢
      rw [hrec, digitChar_toNat (n % 10) (Nat.mod_lt _ (by omega))]
      omega

theorem digitsToNat_natPrint (n : Nat) : digitsToNat (natPrint n) = n :=
  digitsToNat_natPrintAux (n + 1) n (by omega)

theorem takeWhile_of_all {p : Char → Bool} :
    ∀ (l : List Char), (∀ c ∈ l, p c = true) → l.takeWhile p = l := by
  intro l
  induction l with
  | nil => intro _; rfl
  | cons c t iht =>
    intro h
    have hc := h c (by simp)
    simp [List.takeWhile, hc, iht fun x hx => h x (by simp [hx])]

theorem dropWhile_space_of_digits (l : List Char) (h : ∀ c ∈ l, c.isDigit = true) :
    l.dropWhile (fun c => c = ' ') = l := by
  cases l with
  | nil => rfl
  | cons c t =>
    have hc := h c (by simp)
    have hne : c ≠ ' ' := by
      intro he
      rw [he] at hc
      simp at hc
    simp [List.dropWhile_cons, hne]

theorem dropWhile_space_replicate (k : Nat) (l : List Char)
    (h : l.dropWhile (fun c => c = ' ') = l) :
    (List.replicate k ' ' ++ l).dropWhile (fun c => c = ' ') = l := by
  induction k with
  | zero => simpa only [List.replicate_zero, List.nil_append] using h
  | succ m ihm =>
    simp only [List.replicate_succ, List.cons_append, List.dropWhile_cons]
    simpa using ihm

theorem parseDigits_natPrint (n : Nat) : parseDigits (natPrint n) = some n := by
  unfold parseDigits
  rw [takeWhile_of_all (natPrint n) (natPrint_all_digits n)]
  cases hn : natPrint n with
  | nil => exact absurd hn (natPrint_ne_nil n)
  | cons c t =>
    have := digitsToNat_natPrint n
    rw [hn] at this
    simp [this]

theorem ast_str_to_ulong_snprintf30 (n : Nat) :
    ast_str_to_ulong (snprintf30 n) = some n := by
  unfold ast_str_to_ulong ast_str_to_uint snprintf30
  have hlist : (String.mk (List.replicate (30 - (natPrint n).length) ' ' ++ natPrint n)).toList
      = List.replicate (30 - (natPrint n).length) ' ' ++ natPrint n := rfl
  rw [hlist,
    dropWhile_space_replicate _ _ (dropWhile_space_of_digits _ (natPrint_all_digits n)),
    parseDigits_natPrint]

theorem snprintf30_ne_empty (n : Nat) : snprintf30 n ≠ "" := by
  unfold snprintf30
  intro h
  have hdata : List.replicate (30 - (natPrint n).length) ' ' ++ natPrint n = [] := by
    have := congrArg String.toList h
    simpa using this
  rcases List.append_eq_nil.mp hdata with ⟨-, h2⟩
  exact natPrint_ne_nil n h2

theorem tvcmp_usec_zero (n v e : Nat) :
    (ast_tvcmp ⟨n, v⟩ ⟨e, 0⟩ = -1) ↔ n < e := by
  unfold ast_tvcmp
  show (if n < e then (-1 : Int) else if e < n then 1 else if v < 0 then -1
        else if 0 < v then 1 else 0) = -1 ↔ n < e
  repeat' split <;> omega

/-- Expiration check after storing epoch m: expired exactly when m ≤ now.sec. -/
theorem is_expired_after_put (db : AstDB) (url : String) (m n v : Nat) :
    public_key_is_expired ⟨n, v⟩
      (ast_db_put db (ast_sha1_hash url) "expiration" (snprintf30 m)) url
      = decide (m ≤ n) := by
  simp only [public_key_is_expired]
  rw [ast_db_get_put_same, if_neg (snprintf30_ne_empty m), ast_str_to_ulong_snprintf30]
  show (if ast_tvcmp ⟨n, v⟩ ⟨m, 0⟩ = -1 then false else true) = decide (m ≤ n)
  by_cases hlt : n < m
  · rw [if_pos ((tvcmp_usec_zero n v m).mpr hlt)]
    exact (decide_eq_false (Nat.not_le.mpr hlt)).symm
  · rw [if_neg (fun hc => hlt ((tvcmp_usec_zero n v m).mp hc))]
    exact (decide_eq_true (Nat.le_of_not_lt hlt)).symm

/-- C8 (confirmed): immediately after remove(url), lookup(url) returns empty and
is_expired(url) returns true, for every prior store state and any current time. -/
theorem c8_remove_resets (st : St) (url : String) (now : Timeval) :
    get_path_to_public_key (remove_public_key_from_astdb st url).db url = "" ∧
    public_key_is_expired now (remove_public_key_from_astdb st url).db url = true := by
  constructor
  · simp [get_path_to_public_key, remove_public_key_from_astdb, ast_db_get, ast_db_deltree]
  · simp [public_key_is_expired, remove_public_key_from_astdb, ast_db_get, ast_db_deltree]

/-- C9 (confirmed): an empty (or NULL, modelled "") header, payload, signature,
algorithm or public_key_url argument makes verify fail at once: the result is
NULL, the AstDB and filesystem state is returned untouched, and no fetch is
performed. -/
theorem c9_input_error_no_side_effects (env : Env) (st : St)
    (header payload signature algorithm public_key_url : String)
    (h : header = "" ∨ payload = "" ∨ signature = "" ∨ algorithm = "" ∨
         public_key_url = "") :
    ast_stir_shaken_verify env st header payload signature algorithm public_key_url
      = ⟨none, st, 0⟩ := by
  unfold ast_stir_shaken_verify
  rcases h with h | h | h | h | h <;> subst h <;> simp

theorem c9_witness :
    ast_stir_shaken_verify env0 st0 "" "pay" "sig" "ES256" "http://u" = ⟨none, st0, 0⟩ :=
  c9_input_error_no_side_effects env0 st0 "" "pay" "sig" "ES256" "http://u" (Or.inl rfl)

/-- C6 (confirmed): with Cache-Control "max-age=60" written at time T, the key
is not expired for now.sec < T+60 and expired for now.sec ≥ T+60, whatever the
microsecond parts; when the header carries both s-maxage=30 and max-age=60 (in
either directive order), the s-maxage value 30 determines the expiration. -/
theorem c6_expiration_math (db : AstDB) (url expiresHdr : String) (g : String → Nat)
    (T u n v : Nat) :
    (public_key_is_expired ⟨n, v⟩
        (set_public_key_expiration ⟨T, u⟩ g db url ⟨"max-age=60", expiresHdr⟩) url
      = decide (T + 60 ≤ n)) ∧
    (public_key_is_expired ⟨n, v⟩
        (set_public_key_expiration ⟨T, u⟩ g db url ⟨"s-maxage=30, max-age=60", expiresHdr⟩) url
      = decide (T + 30 ≤ n)) ∧
    (public_key_is_expired ⟨n, v⟩
        (set_public_key_expiration ⟨T, u⟩ g db url ⟨"max-age=60, s-maxage=30", expiresHdr⟩) url
      = decide (T + 30 ≤ n)) := by
  refine ⟨?_, ?_, ?_⟩
  · have he : expiration_epoch ⟨T, u⟩ g ⟨"max-age=60", expiresHdr⟩ = T + 60 := rfl
    simp only [set_public_key_expiration, he, is_expired_after_put]
  · have he : expiration_epoch ⟨T, u⟩ g ⟨"s-maxage=30, max-age=60", expiresHdr⟩ = T + 30 := rfl
    simp only [set_public_key_expiration, he, is_expired_after_put]
  · have he : expiration_epoch ⟨T, u⟩ g ⟨"max-age=60, s-maxage=30", expiresHdr⟩ = T + 30 := rfl
    simp only [set_public_key_expiration, he, is_expired_after_put]

/-! Helper lemmas for the base64 padding accounting. -/

theorem getD_append_last (l : List Char) (c d : Char) (i : Nat) (hi : i = l.length) :
    (l ++ [c]).getD i d = c := by
  subst hi
  induction l with
  | nil => rfl
  | cons a t ih => simp only [List.cons_append, List.length_cons, List.getD_cons_succ, ih]

theorem getD_append_penult (l : List Char) (a b d : Char) (i : Nat) (hi : i = l.length) :
    ((l ++ [a]) ++ [b]).getD i d = a := by
  subst hi
  induction l with
  | nil => rfl
  | cons x t ih => simpa using ih

theorem b64_padding_eq_trailingEq (s : String) (h4 : s.toList.length % 4 = 0)
    (hle : trailingEq s ≤ 2) : b64_padding s = trailingEq s := by
  unfold b64_padding trailingEq at *
  generalize hg : s.toList = cs at h4 hle ⊢
  obtain ⟨rs, rfl⟩ : ∃ rs, cs = rs.reverse := ⟨cs.reverse, (List.reverse_reverse cs).symm⟩
  simp only [List.reverse_reverse] at hle
  simp only [List.length_reverse] at h4 ⊢
  cases rs with
  | nil => simp
  | cons c t =>
    by_cases hc : c = '='
    · subst hc
      have hlen : 2 < t.length + 1 := by
        simp only [List.length_cons] at h4
        omega
      cases t with
      | nil => simp at h4
      | cons c2 t2 =>
        simp only [List.reverse_cons, List.length_cons]
        rw [if_pos ?hcond]
        case hcond =>
          refine ⟨by simpa using hlen, ?_⟩
          rw [getD_append_last (t2.reverse ++ [c2]) '=' ' ' _ (by simp)]
        by_cases hc2 : c2 = '='
        · subst hc2
          rw [if_pos (getD_append_penult t2.reverse '=' '=' ' ' _ (by simp))]
          simp only [List.takeWhile_cons] at hle ⊢
          simp at hle ⊢
          exact hle
        · rw [if_neg ?hneg]
          case hneg =>
            rw [getD_append_penult t2.reverse c2 '=' ' ' _ (by simp)]
            exact hc2
          simp [List.takeWhile_cons, hc2]
    · simp only [List.reverse_cons, List.length_cons]
      rw [if_neg ?hne]
      case hne =>
        intro hand
        exact hc (by have := hand.2; rwa [getD_append_last t.reverse c ' ' _ (by simp)] at this)
      simp [List.takeWhile_cons, hc]

/-- C7 (confirmed): for a base64 signature string whose length L is a multiple
of four and which carries p ≤ 2 trailing '=' characters, the decoded length the
verifier allocates and decodes into is exactly L/4*3 - p. -/
theorem c7_decoded_length (s : String) (h4 : s.toList.length % 4 = 0)
    (hp : trailingEq s ≤ 2) :
    decoded_signature_length s = s.toList.length / 4 * 3 - trailingEq s := by
  unfold decoded_signature_length
  rw [b64_padding_eq_trailingEq s h4 hp]

theorem c7_decoded_length_witness :
    decoded_signature_length "QUJDRA==" =
      "QUJDRA==".toList.length / 4 * 3 - trailingEq "QUJDRA==" :=
  c7_decoded_length "QUJDRA==" (by decide) (by decide)

/-- C2 (code_bug): on a cached entry whose stored expiration is past, verify
always fails after the purge without performing any fetch — whatever the
fetcher would return — because curl_and_check_expiration tests its pointer
argument (`if (curl)`, always non-NULL at both call sites) instead of the
pointed flag, contradicting its own documentation ("If curl is non-zero, that
signals CURL has already been run"). The claim's refetch-succeeds scenario is
unreachable: the result is NULL with zero fetches, never success with one. -/
theorem c2_stale_refetch_never_runs (env : Env) (st : St)
    (header payload signature algorithm public_key_url : String)
    (h1 : header ≠ "") (h2 : payload ≠ "") (h3 : signature ≠ "")
    (h4 : algorithm ≠ "") (h5 : public_key_url ≠ "")
    (hcached : get_path_to_public_key st.db public_key_url ≠ "")
    (hstale : public_key_is_expired env.now st.db public_key_url = true) :
    ast_stir_shaken_verify env st header payload signature algorithm public_key_url
      = ⟨none, remove_public_key_from_astdb st public_key_url, 0⟩ := by
  unfold ast_stir_shaken_verify verifyFetch verifyExpired curl_and_check_expiration
  simp [h1, h2, h3, h4, h5, hcached, hstale]

theorem c2_stale_refetch_witness :
    ast_stir_shaken_verify env2 st2 "eyJhbGciOiJFUzI1NiJ9" "payload" "c2ln" "ES256" u2
      = ⟨none, remove_public_key_from_astdb st2 u2, 0⟩ :=
  c2_stale_refetch_never_runs env2 st2 "eyJhbGciOiJFUzI1NiJ9" "payload" "c2ln" "ES256" u2
    (by decide) (by decide) (by decide) (by decide) (by decide) (by decide) (by decide)

/-- C3 counterexample (claim is false on the code): a concrete verify call in
which the ECDSA check reports a mismatch (the signature-verification helper
returns -1), the call returns NULL — yet the key store entry for the url is
still present afterwards, unremoved. -/
theorem c3_entry_kept_on_signature_mismatch :
    stir_shaken_verify_signature env3 "payload" "c2ln" "GOODKEY" = -1 ∧
    (ast_stir_shaken_verify env3 st3 "hdr" "payload" "c2ln" "ES256" u3).result = none ∧
    get_path_to_public_key
        (ast_stir_shaken_verify env3 st3 "hdr" "payload" "c2ln" "ES256" u3).st.db u3
      = "/var/keys/key3.pem" :=
  ⟨rfl, rfl, rfl⟩

/-- C3 amended (proved): when the cached key is fresh and readable but the ECDSA
check reports a mismatch, verify returns NULL with zero fetches and the state —
key store entry included — is left exactly as it was; no removal happens on the
signature-failure path. -/
theorem c3_amended_no_removal_on_mismatch (env : Env) (st : St)
    (header payload signature algorithm public_key_url key : String)
    (h1 : header ≠ "") (h2 : payload ≠ "") (h3 : signature ≠ "")
    (h4 : algorithm ≠ "") (h5 : public_key_url ≠ "")
    (hcached : get_path_to_public_key st.db public_key_url ≠ "")
    (hfresh : public_key_is_expired env.now st.db public_key_url = false)
    (hread : stir_shaken_read_key env st (get_path_to_public_key st.db public_key_url)
      = some key)
    (hsig : env.evpOk key payload signature = false) :
    ast_stir_shaken_verify env st header payload signature algorithm public_key_url
      = ⟨none, st, 0⟩ := by
  unfold ast_stir_shaken_verify verifyFetch verifyExpired verifyRead verifyFinish
    stir_shaken_verify_signature
  simp [h1, h2, h3, h4, h5, hcached, hfresh, hread, hsig]

theorem c3_amended_witness :
    ast_stir_shaken_verify env3 st3 "hdr2" "payload2" "c2ln2" "ES256" u3
      = ⟨none, st3, 0⟩ :=
  c3_amended_no_removal_on_mismatch env3 st3 "hdr2" "payload2" "c2ln2" "ES256" u3 "GOODKEY"
    (by decide) (by decide) (by decide) (by decide) (by decide) (by decide) rfl rfl rfl

/-- C4 (code_bug): on a cache miss the code intends the default path
DATA_DIR/keys/stir_shaken/basename(url), but the snprintf at line 480 is passed
`sizeof(*file_path)` — a single byte — so the computed path is the empty
string; the concrete run below fetches successfully, returns a payload, and the
path recorded in the key store for the url is "" rather than
"/var/lib/asterisk/keys/stir_shaken/key.pem". -/
theorem c4_truncated_default_path :
    snprintf_trunc 1 ("/var/lib/asterisk" ++ "/keys/" ++ "stir_shaken" ++ "/"
      ++ basenameStr u4) = "" ∧
    "/var/lib/asterisk" ++ "/keys/" ++ "stir_shaken" ++ "/" ++ basenameStr u4
      = "/var/lib/asterisk/keys/stir_shaken/key.pem" ∧
    (ast_stir_shaken_verify env4 st0 "hdr" "payload" "c2ln" "ES256" u4).result.isSome
      = true ∧
    ast_db_get (ast_stir_shaken_verify env4 st0 "hdr" "payload" "c2ln" "ES256" u4).st.db
        (ast_sha1_hash u4) "path" = "" :=
  ⟨rfl, rfl, rfl, rfl⟩

/-! Helper lemmas for the JWT profile validator. -/

theorem strlenZeroOpt_false_iff (o : Option String) :
    strlenZeroOpt o = false ↔ o.getD "" ≠ "" := by
  cases o with
  | none => simp [strlenZeroOpt]
  | some s => simp [strlenZeroOpt]

theorem json_get_str2_eq (j hdr : Json) (b : String) (hh : jget j "header" = some hdr) :
    json_get_str2 j "header" b = ast_json_string_get (jget hdr b) := by
  unfold json_get_str2
  rw [hh]
  rfl

theorem json_get_str2_none (j : Json) (b : String) (hh : jget j "header" = none) :
    json_get_str2 j "header" b = none := by
  unfold json_get_str2
  rw [hh]
  rfl

theorem json_get_orig_tn_eq (j pl : Json) (hpl : jget j "payload" = some pl) :
    json_get_orig_tn j = ast_json_string_get (jgetO (jget pl "orig") "tn") := by
  unfold json_get_orig_tn
  rw [hpl]
  rfl

theorem json_get_orig_tn_none (j : Json) (hpl : jget j "payload" = none) :
    json_get_orig_tn j = none := by
  unfold json_get_orig_tn
  rw [hpl]
  rfl

theorem strlenZeroOpt_some_ne (s : String) (h : s ≠ "") :
    strlenZeroOpt (some s) = false := by
  simp [strlenZeroOpt, h]

/-- Full case analysis of stir_shaken_verify_json: either the spec-side profile
constraints hold and validation returns the record built from the header and
payload objects, or some constraint fails and the error names a violated field. -/
theorem verify_json_cases (j : Json) :
    (spec_profile_ok j ∧ ∃ hdr pl,
        jget j "header" = some hdr ∧ jget j "payload" = some pl ∧
        stir_shaken_verify_json j
          = .ok { header := hdr, payload := pl, signature := "",
                  algorithm := "ES256", public_key_url := "" }) ∨
    (¬ spec_profile_ok j ∧ ∃ e,
        stir_shaken_verify_json j = .error e ∧ profile_field_bad j (errField e)) := by
  have hsh : strlenZeroOpt (some "shaken") = false := strlenZeroOpt_some_ne _ (by decide)
  have hpa : strlenZeroOpt (some "passport") = false := strlenZeroOpt_some_ne _ (by decide)
  have hes : strlenZeroOpt (some "ES256") = false := strlenZeroOpt_some_ne _ (by decide)
  cases hh : jget j "header" with
  | none =>
    refine Or.inr ⟨?_, .missing "header", ?_, ?_⟩
    · rintro ⟨h1, -⟩
      rw [json_get_str2_none j "ppt" hh] at h1
      exact Option.noConfusion h1
    · unfold stir_shaken_verify_json
      rw [hh]
    · show jget j "header" = none
      exact hh
  | some hdr =>
    by_cases hp : ast_json_string_get (jget hdr "ppt") = some "shaken"
    case neg =>
      have hbad : profile_field_bad j "ppt" := by
        show json_get_str2 j "header" "ppt" ≠ some "shaken"
        rw [json_get_str2_eq j hdr "ppt" hh]
        exact hp
      refine Or.inr ⟨?_, ?_⟩
      · rintro ⟨h1, -⟩
        rw [json_get_str2_eq j hdr "ppt" hh] at h1
        exact hp h1
      · by_cases hz : strlenZeroOpt (ast_json_string_get (jget hdr "ppt")) = true
        · refine ⟨.missing "ppt", ?_, hbad⟩
          unfold stir_shaken_verify_json
          rw [hh]
          simp [hz]
        · refine ⟨.mismatch "ppt" "shaken" ((ast_json_string_get (jget hdr "ppt")).getD ""),
            ?_, hbad⟩
          unfold stir_shaken_verify_json
          rw [hh]
          simp [hz, hp]
    case pos =>
    by_cases ht : ast_json_string_get (jget hdr "typ") = some "passport"
    case neg =>
      have hbad : profile_field_bad j "typ" := by
        show json_get_str2 j "header" "typ" ≠ some "passport"
        rw [json_get_str2_eq j hdr "typ" hh]
        exact ht
      refine Or.inr ⟨?_, ?_⟩
      · rintro ⟨-, h2, -⟩
        rw [json_get_str2_eq j hdr "typ" hh] at h2
        exact ht h2
      · by_cases hz : strlenZeroOpt (ast_json_string_get (jget hdr "typ")) = true
        · refine ⟨.missing "typ", ?_, hbad⟩
          unfold stir_shaken_verify_json
          rw [hh]
          simp [hp, hsh, hz]
        · refine ⟨.mismatch "typ" "passport" ((ast_json_string_get (jget hdr "typ")).getD ""),
            ?_, hbad⟩
          unfold stir_shaken_verify_json
          rw [hh]
          simp [hp, hsh, hz, ht]
    case pos =>
    by_cases ha : ast_json_string_get (jget hdr "alg") = some "ES256"
    case neg =>
      have hbad : profile_field_bad j "alg" := by
        show json_get_str2 j "header" "alg" ≠ some "ES256"
        rw [json_get_str2_eq j hdr "alg" hh]
        exact ha
      refine Or.inr ⟨?_, ?_⟩
      · rintro ⟨-, -, h3, -⟩
        rw [json_get_str2_eq j hdr "alg" hh] at h3
        exact ha h3
      · by_cases hz : strlenZeroOpt (ast_json_string_get (jget hdr "alg")) = true
        · refine ⟨.missing "alg", ?_, hbad⟩
          unfold stir_shaken_verify_json
          rw [hh]
          simp [hp, hsh, ht, hpa, hz]
        · refine ⟨.mismatch "alg" "ES256" ((ast_json_string_get (jget hdr "alg")).getD ""),
            ?_, hbad⟩
          unfold stir_shaken_verify_json
          rw [hh]
          simp [hp, hsh, ht, hpa, hz, ha]
    case pos =>
    cases hpl : jget j "payload" with
    | none =>
      refine Or.inr ⟨?_, .missing "payload", ?_, ?_⟩
      · rintro ⟨-, -, -, h4⟩
        rw [json_get_orig_tn_none j hpl] at h4
        simp at h4
      · unfold stir_shaken_verify_json
        rw [hh, hpl]
        simp [hp, hsh, ht, hpa, ha, hes]
      · show jget j "payload" = none
        exact hpl
    | some pl =>
      by_cases htn : strlenZeroOpt (ast_json_string_get (jgetO (jget pl "orig") "tn")) = true
      · refine Or.inr ⟨?_, .missing "orig->tn", ?_, ?_⟩
        · rintro ⟨-, -, -, h4⟩
          rw [json_get_orig_tn_eq j pl hpl] at h4
          exact absurd ((strlenZeroOpt_false_iff _).mpr h4) (by simp [htn])
        · unfold stir_shaken_verify_json
          rw [hh, hpl]
          simp [hp, hsh, ht, hpa, ha, hes, htn]
        · show (json_get_orig_tn j).getD "" = ""
          rw [json_get_orig_tn_eq j pl hpl]
          by_contra hne
          exact absurd ((strlenZeroOpt_false_iff _).mpr hne) (by simp [htn])
      · refine Or.inl ⟨⟨?_, ?_, ?_, ?_⟩, hdr, pl, rfl, rfl, ?_⟩
        · rw [json_get_str2_eq j hdr "ppt" hh]; exact hp
        · rw [json_get_str2_eq j hdr "typ" hh]; exact ht
        · rw [json_get_str2_eq j hdr "alg" hh]; exact ha
        · rw [json_get_orig_tn_eq j pl hpl]
          exact (strlenZeroOpt_false_iff _).mp (by simpa using htn)
        · unfold stir_shaken_verify_json
          rw [hh, hpl]
          simp [hp, hsh, ht, hpa, ha, hes, htn]

/-- C5 (confirmed): validation succeeds exactly when header.ppt, header.typ,
header.alg carry "shaken", "passport", "ES256" and payload.orig.tn is a
non-empty string; on success the record holds deep copies of the header and
payload objects and algorithm "ES256"; on failure the ProfileError (the ERROR
log line) names a violated field; and sign fails whenever validation does. -/
theorem c5_profile_validation (j : Json) :
    (validator_ok j = true ↔ spec_profile_ok j) ∧
    (∀ r, stir_shaken_verify_json j = .ok r →
        jget j "header" = some r.header ∧ jget j "payload" = some r.payload ∧
        r.algorithm = "ES256" ∧ r.signature = "" ∧ r.public_key_url = "") ∧
    (∀ e, stir_shaken_verify_json j = .error e → profile_field_bad j (errField e)) ∧
    (∀ env, ¬ spec_profile_ok j → (ast_stir_shaken_sign env j).1 = none) := by
  rcases verify_json_cases j with ⟨hspec, hdr, pl, hh, hpl, hok⟩ | ⟨hspec, e, herr, hbad⟩
  · refine ⟨⟨fun _ => hspec, fun _ => by simp [validator_ok, hok]⟩, ?_, ?_, ?_⟩
    · intro r hr
      have hre := (hok.symm.trans hr)
      injection hre with hre
      subst hre
      exact ⟨hh, hpl, rfl, rfl, rfl⟩
    · intro e he
      exact absurd (hok.symm.trans he) (by simp)
    · intro env hns
      exact absurd hspec hns
  · refine ⟨⟨?_, fun hs => absurd hs hspec⟩, ?_, ?_, ?_⟩
    · intro hv
      rw [validator_ok, herr] at hv
      simp at hv
    · intro r hr
      exact absurd (herr.symm.trans hr) (by simp)
    · intro e2 he2
      have hee := (herr.symm.trans he2)
      injection hee with hee
      subst hee
      exact hbad
    · intro env hns
      simp only [ast_stir_shaken_sign, herr]

theorem c5_profile_witness : validator_ok jGood = true :=
  (c5_profile_validation jGood).1.mpr (by decide)

/-! Helper lemmas about object-set / object-get on the JSON model. -/

theorem lookupField_setField_same (fs : List (String × Json)) (k : String) (v : Json) :
    lookupField (setField fs k v) k = some v := by
  induction fs with
  | nil => simp [setField, lookupField]
  | cons p rest ih =>
    obtain ⟨k', v'⟩ := p
    by_cases hk : k' = k
    · subst hk
      simp [setField, lookupField]
    · simp [setField, lookupField, hk, ih]

theorem lookupField_setField_other (fs : List (String × Json)) (k k2 : String) (v : Json)
    (h : k2 ≠ k) : lookupField (setField fs k v) k2 = lookupField fs k2 := by
  have hkk : k ≠ k2 := Ne.symm h
  induction fs with
  | nil => simp [setField, lookupField, hkk]
  | cons p rest ih =>
    obtain ⟨k', v'⟩ := p
    by_cases hk : k' = k
    · subst hk
      simp [setField, lookupField, hkk]
    · by_cases hk2 : k' = k2
      · subst hk2
        simp [setField, lookupField, hk]
      · simp [setField, lookupField, hk, hk2, ih]

theorem setIn_shape (j j' : Json) (o k : String) (v : Json) (h : setIn j o k v = some j') :
    ∃ fs ifs, j = .obj fs ∧ lookupField fs o = some (.obj ifs) ∧
      j' = .obj (setField fs o (.obj (setField ifs k v))) := by
  unfold setIn at h
  cases hj : jget j o with
  | none =>
    rw [hj] at h
    exact Option.noConfusion h
  | some inner =>
    rw [hj] at h
    cases inner with
    | obj ifs =>
      simp only [ast_json_object_set] at h
      cases j with
      | obj fs =>
        simp only [ast_json_object_set, Option.some.injEq] at h
        exact ⟨fs, ifs, rfl, by simpa [jget] using hj, h.symm⟩
      | null => simp [jget] at hj
      | str s => simp [jget] at hj
      | int n => simp [jget] at hj
    | null => simp [ast_json_object_set] at h
    | str s => simp [ast_json_object_set] at h
    | int n => simp [ast_json_object_set] at h

theorem setIn_get_same (j j' : Json) (o k : String) (v : Json)
    (h : setIn j o k v = some j') : jgetO (jget j' o) k = some v := by
  obtain ⟨fs, ifs, rfl, hlk, rfl⟩ := setIn_shape j j' o k v h
  simp [jget, jgetO, lookupField_setField_same]

theorem setIn_get_same_other_key (j j' : Json) (o k k2 : String) (v : Json)
    (h : setIn j o k v = some j') (hk : k2 ≠ k) :
    jgetO (jget j' o) k2 = jgetO (jget j o) k2 := by
  obtain ⟨fs, ifs, rfl, hlk, rfl⟩ := setIn_shape j j' o k v h
  simp [jget, jgetO, lookupField_setField_same, hlk,
    lookupField_setField_other _ _ _ _ hk]

theorem setIn_get_other_outer (j j' : Json) (o o2 k : String) (v : Json)
    (h : setIn j o k v = some j') (ho : o2 ≠ o) :
    jget j' o2 = jget j o2 := by
  obtain ⟨fs, ifs, rfl, hlk, rfl⟩ := setIn_shape j j' o k v h
  simp [jget, lookupField_setField_other _ _ _ _ ho]

/-- C1 counterexample (claim is false on the code): a concrete well-formed JWT
whose certificate resolves; sign succeeds (the mapped Option is some), yet in
the returned record the header has no x5u and the payload has neither attest,
origid nor iat — sign deep-copies header and payload during validation, before
the fields are injected into the caller's json. -/
theorem c1_record_lacks_injected_fields :
    ((ast_stir_shaken_sign signEnv1 jIn).1.map
        (fun r => (jget r.header "x5u", jget r.payload "attest",
                   jget r.payload "origid", jget r.payload "iat")))
      = some (none, none, none, none) := rfl

/-- C1 amended (proved): for every successful sign, the injected fields are
present in the mutated input JSON (second component of the result): its header
has x5u = cert.public_key_url for the certificate resolved from payload.orig.tn,
its payload has attest "B", origid "asterisk" and the integer iat; while the
returned record's header and payload are the deep copies taken during
validation, i.e. the input's own header and payload objects, with algorithm
"ES256". -/
theorem c1_amended_injection_into_input_json (env : SignEnv) (json json' : Json)
    (r : SSPayload) (h : ast_stir_shaken_sign env json = (some r, json')) :
    ∃ tn cert,
      ast_json_string_get (jgetO (jgetO (jget json "payload") "orig") "tn") = some tn ∧
      env.certs tn = some cert ∧
      jgetO (jget json' "header") "x5u" = some (.str cert.public_key_url) ∧
      jgetO (jget json' "payload") "attest" = some (.str "B") ∧
      jgetO (jget json' "payload") "origid" = some (.str "asterisk") ∧
      jgetO (jget json' "payload") "iat"
        = some (.int (Int.ofNat (env.now.sec + env.now.usec / 1000))) ∧
      jget json "header" = some r.header ∧
      jget json "payload" = some r.payload ∧
      r.algorithm = "ES256" := by
  unfold ast_stir_shaken_sign at h
  cases hv : stir_shaken_verify_json json with
  | error e =>
    simp only [hv] at h
    exact absurd (congrArg Prod.fst h) (by simp)
  | ok pl0 =>
    simp only [hv] at h
    cases htn : ast_json_string_get (jgetO (jgetO (jget json "payload") "orig") "tn") with
    | none =>
      simp only [htn] at h
      exact absurd (congrArg Prod.fst h) (by simp)
    | some tn =>
      simp only [htn] at h
      cases hc : env.certs tn with
      | none =>
        simp only [hc] at h
        exact absurd (congrArg Prod.fst h) (by simp)
      | some cert =>
        simp only [hc] at h
        cases hx : stir_shaken_add_x5u json cert.public_key_url with
        | none =>
          simp only [hx] at h
          exact absurd (congrArg Prod.fst h) (by simp)
        | some json1 =>
          simp only [hx] at h
          cases hat : stir_shaken_add_attest json1 "B" with
          | none =>
            simp only [hat] at h
            exact absurd (congrArg Prod.fst h) (by simp)
          | some json2 =>
            simp only [hat] at h
            cases hor : stir_shaken_add_origid json2 "asterisk" with
            | none =>
              simp only [hor] at h
              exact absurd (congrArg Prod.fst h) (by simp)
            | some json3 =>
              simp only [hor] at h
              cases hiat : stir_shaken_add_iat env json3 with
              | none =>
                simp only [hiat] at h
                exact absurd (congrArg Prod.fst h) (by simp)
              | some json4 =>
                simp only [hiat] at h
                cases hd : env.dump json4 with
                | none =>
                  simp only [hd] at h
                  exact absurd (congrArg Prod.fst h) (by simp)
                | some json_str =>
                  simp only [hd] at h
                  cases hs : stir_shaken_sign env json_str cert.private_key with
                  | none =>
                    simp only [hs] at h
                    exact absurd (congrArg Prod.fst h) (by simp)
                  | some signature =>
                    simp only [hs] at h
                    have hr : some { pl0 with signature := signature } = some r :=
                      congrArg Prod.fst h
                    have hj4 : json4 = json' := congrArg Prod.snd h
                    injection hr with hr
                    subst hj4
                    -- field-tracking through the four injections
                    have hx5u : jgetO (jget json1 "header") "x5u"
                        = some (.str cert.public_key_url) :=
                      setIn_get_same _ _ _ _ _ hx
                    have hx5u2 : jgetO (jget json2 "header") "x5u"
                        = some (.str cert.public_key_url) := by
                      rw [setIn_get_other_outer _ _ _ _ _ _ hat (by decide)]
                      exact hx5u
                    have hx5u3 : jgetO (jget json3 "header") "x5u"
                        = some (.str cert.public_key_url) := by
                      rw [setIn_get_other_outer _ _ _ _ _ _ hor (by decide)]
                      exact hx5u2
                    have hx5u4 : jgetO (jget json4 "header") "x5u"
                        = some (.str cert.public_key_url) := by
                      rw [setIn_get_other_outer _ _ _ _ _ _ hiat (by decide)]
                      exact hx5u3
                    have hat2 : jgetO (jget json2 "payload") "attest"
                        = some (.str "B") :=
                      setIn_get_same _ _ _ _ _ hat
                    have hat3 : jgetO (jget json3 "payload") "attest"
                        = some (.str "B") := by
                      rw [setIn_get_same_other_key _ _ _ _ _ _ hor (by decide)]
                      exact hat2
                    have hat4 : jgetO (jget json4 "payload") "attest"
                        = some (.str "B") := by
                      rw [setIn_get_same_other_key _ _ _ _ _ _ hiat (by decide)]
                      exact hat3
                    have hor3 : jgetO (jget json3 "payload") "origid"
                        = some (.str "asterisk") :=
                      setIn_get_same _ _ _ _ _ hor
                    have hor4 : jgetO (jget json4 "payload") "origid"
                        = some (.str "asterisk") := by
                      rw [setIn_get_same_other_key _ _ _ _ _ _ hiat (by decide)]
                      exact hor3
                    have hiat4 : jgetO (jget json4 "payload") "iat"
                        = some (.int (Int.ofNat (env.now.sec + env.now.usec / 1000))) :=
                      setIn_get_same _ _ _ _ _ hiat
                    rcases verify_json_cases json with
                      ⟨-, hdr, pl, hh, hpl, hok⟩ | ⟨-, e, herr, -⟩
                    · have hre := hok.symm.trans hv
                      injection hre with hre
                      refine ⟨tn, cert, rfl, hc, hx5u4, hat4, hor4, hiat4, ?_, ?_, ?_⟩
                      · rw [hh]
                        subst hr
                        rw [← hre]
                      · rw [hpl]
                        subst hr
                        rw [← hre]
                      · subst hr
                        rw [← hre]
                    · exact absurd (herr.symm.trans hv) (by simp)

theorem c1_amended_witness :
    ∃ tn cert,
      ast_json_string_get (jgetO (jgetO (jget jIn "payload") "orig") "tn") = some tn ∧
      signEnv1.certs tn = some cert ∧
      jgetO (jget jOut "header") "x5u" = some (.str cert.public_key_url) ∧
      jgetO (jget jOut "payload") "attest" = some (.str "B") ∧
      jgetO (jget jOut "payload") "origid" = some (.str "asterisk") ∧
      jgetO (jget jOut "payload") "iat"
        = some (.int (Int.ofNat (signEnv1.now.sec + signEnv1.now.usec / 1000))) ∧
      jget jIn "header" = some rOut.header ∧
      jget jIn "payload" = some rOut.payload ∧
      rOut.algorithm = "ES256" :=
  c1_amended_injection_into_input_json signEnv1 jIn jOut rOut rfl

/-! Stage lemmas showing the algorithm argument is only copied into the final
record: each verify stage with algorithm alg equals the same stage with a fixed
algorithm, with the result's algorithm field patched. -/

theorem verifyFinish_alg (env : Env) (st : St) (fetches : Nat)
    (key h p s alg url : String) :
    verifyFinish env st fetches key h p s alg url
      = patchAlg alg (verifyFinish env st fetches key h p s "" url) := by
  unfold verifyFinish
  by_cases hsig : stir_shaken_verify_signature env p s key ≠ 0
  · simp [hsig, patchAlg]
  · cases hl : env.loads h with
    | none => simp [hsig, hl, patchAlg]
    | some hJ =>
      cases hl2 : env.loads p with
      | none => simp [hsig, hl, hl2, patchAlg]
      | some pJ => simp [hsig, hl, hl2, patchAlg]

theorem verifyRead_alg (env : Env) (st : St) (fetches curl : Nat)
    (fp h p s alg url : String) :
    verifyRead env st fetches curl fp h p s alg url
      = patchAlg alg (verifyRead env st fetches curl fp h p s "" url) := by
  unfold verifyRead
  dsimp only
  cases hr : stir_shaken_read_key env st fp with
  | some key =>
    dsimp only
    exact verifyFinish_alg env st fetches key h p s alg url
  | none =>
    dsimp only
    cases hc : curl_and_check_expiration env (remove_public_key_from_astdb st url) url fp
        (some curl) with
    | mk st2 rest =>
      cases rest with
      | mk o2 f2 =>
        cases o2 with
        | none => simp [patchAlg]
        | some curl2 =>
          dsimp only
          cases hr2 : stir_shaken_read_key env st2 fp with
          | none => simp [patchAlg, hr2]
          | some key =>
            exact verifyFinish_alg env st2 (fetches + f2) key h p s alg url

theorem verifyExpired_alg (env : Env) (st : St) (fetches curl : Nat)
    (fp h p s alg url : String) :
    verifyExpired env st fetches curl fp h p s alg url
      = patchAlg alg (verifyExpired env st fetches curl fp h p s "" url) := by
  unfold verifyExpired
  dsimp only
  by_cases he : public_key_is_expired env.now st.db url = true
  · simp only [if_pos he]
    cases hc : curl_and_check_expiration env (remove_public_key_from_astdb st url) url fp
        (some curl) with
    | mk st2 rest =>
      cases rest with
      | mk o2 f2 =>
        cases o2 with
        | none => simp [patchAlg]
        | some curl2 =>
          dsimp only
          exact verifyRead_alg env st2 (fetches + f2) curl2 fp h p s alg url
  · simp only [if_neg he]
    exact verifyRead_alg env st fetches curl fp h p s alg url

theorem verifyFetch_alg (env : Env) (st : St) (h p s alg url : String) :
    verifyFetch env st h p s alg url
      = patchAlg alg (verifyFetch env st h p s "" url) := by
  unfold verifyFetch
  dsimp only
  by_cases hmiss : get_path_to_public_key st.db url = ""
  · simp only [if_pos hmiss]
    cases hrc : run_curl env (remove_public_key_from_astdb st url) url
        (snprintf_trunc 1 (env.dataDir ++ "/keys/" ++ "stir_shaken" ++ "/"
          ++ basenameStr url)) with
    | none => simp [patchAlg]
    | some st2 =>
      dsimp only
      exact verifyExpired_alg env _ 1 1 _ h p s alg url
  · simp only [if_neg hmiss]
    exact verifyExpired_alg env st 0 0 _ h p s alg url

/-- C10 (confirmed): two verify runs differing only in their (non-empty)
algorithm argument have identical final state, identical fetch count and the
same success/failure outcome; the successful record differs only in its
algorithm field, which is the argument copied verbatim — the argument never
reaches the cryptographic check. -/
theorem c10_algorithm_noninterference (env : Env) (st : St)
    (h p s alg1 alg2 url : String) (ha1 : alg1 ≠ "") (ha2 : alg2 ≠ "") :
    (ast_stir_shaken_verify env st h p s alg1 url).st
      = (ast_stir_shaken_verify env st h p s alg2 url).st ∧
    (ast_stir_shaken_verify env st h p s alg1 url).fetches
      = (ast_stir_shaken_verify env st h p s alg2 url).fetches ∧
    (ast_stir_shaken_verify env st h p s alg1 url).result
      = ((ast_stir_shaken_verify env st h p s alg2 url).result.map
          (fun r => { r with algorithm := alg1 })) ∧
    (∀ r, (ast_stir_shaken_verify env st h p s alg1 url).result = some r →
        r.algorithm = alg1) := by
  by_cases hh : h = ""
  · subst hh
    simp [ast_stir_shaken_verify]
  by_cases hp : p = ""
  · subst hp
    simp [ast_stir_shaken_verify, hh]
  by_cases hs : s = ""
  · subst hs
    simp [ast_stir_shaken_verify, hh, hp]
  by_cases hu : url = ""
  · subst hu
    simp [ast_stir_shaken_verify, hh, hp, hs, ha1, ha2]
  have hv1 : ast_stir_shaken_verify env st h p s alg1 url
      = patchAlg alg1 (verifyFetch env st h p s "" url) := by
    unfold ast_stir_shaken_verify
    rw [if_neg hh, if_neg hp, if_neg hs, if_neg ha1, if_neg hu]
    exact verifyFetch_alg env st h p s alg1 url
  have hv2 : ast_stir_shaken_verify env st h p s alg2 url
      = patchAlg alg2 (verifyFetch env st h p s "" url) := by
    unfold ast_stir_shaken_verify
    rw [if_neg hh, if_neg hp, if_neg hs, if_neg ha2, if_neg hu]
    exact verifyFetch_alg env st h p s alg2 url
  rw [hv1, hv2]
  cases hres : (verifyFetch env st h p s "" url).result with
  | none =>
    refine ⟨by simp [patchAlg], by simp [patchAlg], by simp [patchAlg, hres], ?_⟩
    intro r hr
    simp [patchAlg, hres] at hr
  | some r0 =>
    refine ⟨by simp [patchAlg], by simp [patchAlg], by simp [patchAlg, hres], ?_⟩
    intro r hr
    simp only [patchAlg, hres] at hr
    have h3 : some { r0 with algorithm := alg1 } = some r := hr
    injection h3 with h4
    rw [← h4]

theorem c10_witness :
    (ast_stir_shaken_verify env0 st0 "hdr" "payload" "c2ln" "ES256" "http://u10").fetches
      = (ast_stir_shaken_verify env0 st0 "hdr" "payload" "c2ln" "RS256" "http://u10").fetches :=
  (c10_algorithm_noninterference env0 st0 "hdr" "payload" "c2ln" "ES256" "RS256" "http://u10"
    (by decide) (by decide)).2.1

end StirShaken
